import Mathlib

/-!
Verification of the partial-update SQL clause builder of the Express-Jobly
repository (`src/helpers/sql.js`, function `sqlForPartialUpdate`) and of its
caller `Job.update` (`src/models/job.js`).

The embedding is shallow.  A JavaScript object is modelled as an ordered
association list `List (String × α)`: JavaScript objects preserve key
insertion order, keys are unique, `Object.keys` returns the keys in that
order, `Object.values` the values in that order, and property access
`o[k]` is association-list lookup.  JavaScript scalar values that can occur
in a request body are modelled by `JsValue`.  The `BadRequestError` and
`NotFoundError` classes of `expressError.js` become constructors of
`ExpressErr`, and a throwing function becomes a function into `Except`.
-/

namespace Jobly

/-- A JavaScript scalar value as accepted in a JSON request body:
string, number, boolean or null. -/
inductive JsValue where
  | str : String → JsValue
  | num : Int → JsValue
  | boolean : Bool → JsValue
  | null : JsValue
deriving DecidableEq, Repr

/-- The error classes of `expressError.js` used by the code under study:
`BadRequestError` (status 400) and `NotFoundError` (status 404), each
carrying its message. -/
inductive ExpressErr where
  | badRequestError (msg : String)
  | notFoundError (msg : String)
deriving DecidableEq, Repr

/-- The record returned by `sqlForPartialUpdate`: the joined assignment
fragments (`setCols`) and the positional parameter values (`values`). -/
structure SqlUpdate (α : Type) where
  setCols : String
  values : List α
deriving DecidableEq, Repr

/-- The column-name resolution of `src/helpers/sql.js` line 17:
`jsToSql[colName] || colName`.  Property access on the object `jsToSql`
is association-list lookup; `||` takes the right operand when the left is
falsy, i.e. when the key is absent (`undefined`) or its value is the empty
string (the only falsy string). -/
def resolveCol (jsToSql : List (String × String)) (colName : String) : String :=
  match jsToSql.lookup colName with
  | some v => if v = "" then colName else v
  | none => colName

/-- `sqlForPartialUpdate` of `src/helpers/sql.js`.  The function is generic
in the value type `α` because it never inspects the values: it reads
`Object.keys dataToUpdate`, throws `BadRequestError "No data"` when there
are none, builds one fragment `"col"=$i` per key (1-indexed, in key order,
`.map` with index = `mapIdx`), joins them with `", "` and pairs the result
with `Object.values dataToUpdate`. -/
def sqlForPartialUpdate (dataToUpdate : List (String × α))
    (jsToSql : List (String × String)) : Except ExpressErr (SqlUpdate α) :=
  let keys := dataToUpdate.map Prod.fst
  if keys.length = 0 then .error (.badRequestError "No data")
  else
    let cols := keys.mapIdx (fun idx colName =>
      "\"" ++ resolveCol jsToSql colName ++ "\"=$" ++ toString (idx + 1))
    .ok { setCols := String.intercalate ", " cols
          values := dataToUpdate.map Prod.snd }

/-- The `jsToSql` translation object that `Job.update` passes to
`sqlForPartialUpdate` (`src/models/job.js`). -/
def jobJsToSql : List (String × String) := [("companyHandle", "company_handle")]

/-- The query text and parameter array that `Job.update id data`
(`src/models/job.js`) hands to `db.query`.  The template literal
interpolates `setCols` and interpolates `id` directly into the text
(`WHERE id = ${id}`); the parameter array is `[...values]`, a copy of
`values` with nothing appended.  `id` is a string (`req.params.id`). -/
def jobUpdateQuery (id : String) (data : List (String × JsValue)) :
    Except ExpressErr (String × List JsValue) :=
  match sqlForPartialUpdate data jobJsToSql with
  | .error e => .error e
  | .ok r =>
      .ok ("UPDATE jobs\n                      SET " ++ r.setCols ++
           " \n                      WHERE id = " ++ id ++
           " \n                      RETURNING id, \n                                title, \n                                salary, \n                                equity,\n                                company_handle AS \"companyHandle\"",
           r.values)

/-- The heap visible to one call of `sqlForPartialUpdate`: the two
caller-owned objects it receives.  Used to state the no-mutation claim by
explicit state passing. -/
structure CallState (α : Type) where
  dataToUpdate : List (String × α)
  jsToSql : List (String × String)
deriving DecidableEq, Repr

/-- `Object.keys(dataToUpdate)` as a state-passing operation: per
ECMA-262 it returns a fresh array of the object's keys in insertion order
and does not modify the object. -/
def objectKeysOp (s : CallState α) : List String × CallState α :=
  (s.dataToUpdate.map Prod.fst, s)

/-- `Object.values(dataToUpdate)` as a state-passing operation: it returns
a fresh array of the object's values in insertion order and does not
modify the object. -/
def objectValuesOp (s : CallState α) : List α × CallState α :=
  (s.dataToUpdate.map Prod.snd, s)

/-- `sqlForPartialUpdate` with the two input objects threaded through as
explicit state, each object operation of the source body (`Object.keys`,
the reads of `jsToSql` inside the `.map` callback, `Object.values`)
returning its result together with the heap it leaves behind.  `.map` and
`.join` build fresh arrays/strings and touch neither object. -/
def sqlForPartialUpdateSt (s : CallState α) :
    Except ExpressErr (SqlUpdate α) × CallState α :=
  let p1 := objectKeysOp s
  let keys := p1.1
  let s1 := p1.2
  if keys.length = 0 then (.error (.badRequestError "No data"), s1)
  else
    let cols := keys.mapIdx (fun idx colName =>
      "\"" ++ resolveCol s1.jsToSql colName ++ "\"=$" ++ toString (idx + 1))
    let p2 := objectValuesOp s1
    (.ok { setCols := String.intercalate ", " cols, values := p2.1 }, p2.2)

/-- The amended column-resolution rule, stated from the spec's side for
comparison with the code: the resolved column for field `k` is `t[k]` when
`k` is present in `t` with a non-empty entry, and `k` itself when `k` is
absent from `t` or its entry is the empty string. -/
def specResolvedColumn (t : List (String × String)) (k : String) : String :=
  match t.lookup k with
  | some v => if v = "" then k else v
  | none => k

/-! Helper lemmas shared by the claim theorems. -/

/-- On a non-empty field map the builder succeeds, and its output is the
join of one fragment per key together with the value column. -/
theorem sqlForPartialUpdate_ok (m : List (String × α))
    (t : List (String × String)) (hm : m ≠ []) :
    sqlForPartialUpdate m t = .ok
      { setCols := String.intercalate ", " ((m.map Prod.fst).mapIdx
          (fun idx colName =>
            "\"" ++ resolveCol t colName ++ "\"=$" ++ toString (idx + 1)))
        values := m.map Prod.snd } := by
  simp only [sqlForPartialUpdate]
  rw [if_neg]
  simp [hm]

/-- `mapIdx` only looks at the members of the list. -/
theorem mapIdx_congr_of_mem {l : List α} {f g : ℕ → α → β}
    (h : ∀ i a, a ∈ l → f i a = g i a) : l.mapIdx f = l.mapIdx g := by
  rw [List.mapIdx_eq_ofFn, List.mapIdx_eq_ofFn]
  congr 1
  funext i
  exact h i _ (l.get_mem i i.isLt)

/-- In an association list with pairwise-distinct keys, looking up the
`i`-th key yields the `i`-th value. -/
theorem lookup_get_of_nodupKeys (l : List (String × α))
    (h : (l.map Prod.fst).Nodup) :
    ∀ i (hi : i < l.length),
      l.lookup (l.get ⟨i, hi⟩).1 = some (l.get ⟨i, hi⟩).2 := by
  induction l with
  | nil => intro i hi; simp at hi
  | cons p tl ih =>
    obtain ⟨k, v⟩ := p
    intro i hi
    match i with
    | 0 => simp [List.lookup]
    | Nat.succ j =>
      have hj : j < tl.length := by simpa using hi
      have hmem : (tl.get ⟨j, hj⟩).1 ∈ tl.map Prod.fst :=
        List.mem_map.mpr ⟨tl.get ⟨j, hj⟩, tl.get_mem j hj, rfl⟩
      have hhead : k ∉ tl.map Prod.fst := by
        simp only [List.map_cons, List.nodup_cons] at h
        exact h.1
      have hne : (tl.get ⟨j, hj⟩).1 ≠ k := fun e => hhead (e ▸ hmem)
      have htl : (tl.map Prod.fst).Nodup := by
        simp only [List.map_cons, List.nodup_cons] at h
        exact h.2
      have hg : ((k, v) :: tl).get ⟨j + 1, hi⟩ = tl.get ⟨j, hj⟩ := rfl
      rw [hg]
      have hbeq : ((tl.get ⟨j, hj⟩).1 == k) = false := beq_eq_false_iff_ne.mpr hne
      simp only [List.lookup, hbeq]
      exact ih htl j hj

/-! The claims. -/

/-- Claim C1: for every non-empty field map and translation table, the
clause is the `", "`-join of exactly `length m` fragments, fragment `i`
being of the form `"<column>"=$<i+1>`, with 1-indexed, contiguous,
gap-free placeholders. -/
theorem C1_clause_shape (m : List (String × JsValue))
    (t : List (String × String)) (hm : m ≠ []) :
    ∃ frags : List String,
      (sqlForPartialUpdate m t).map SqlUpdate.setCols =
        .ok (String.intercalate ", " frags) ∧
      frags.length = m.length ∧
      ∀ i, i < m.length → ∃ c : String,
        frags.getD i "" = "\"" ++ c ++ "\"=$" ++ toString (i + 1) := by
  refine ⟨(m.map Prod.fst).mapIdx (fun idx colName =>
    "\"" ++ resolveCol t colName ++ "\"=$" ++ toString (idx + 1)), ?_, ?_, ?_⟩
  · rw [sqlForPartialUpdate_ok m t hm]; rfl
  · simp
  · intro i hi
    have hi' : i < ((m.map Prod.fst).mapIdx (fun idx colName =>
        "\"" ++ resolveCol t colName ++ "\"=$" ++ toString (idx + 1))).length := by
      simpa using hi
    have him : i < (m.map Prod.fst).length := by simpa using hi
    refine ⟨resolveCol t ((m.map Prod.fst).get ⟨i, him⟩), ?_⟩
    rw [List.getD_eq_get _ _ hi', List.get_mapIdx]

theorem C1_clause_shape_witness :
    ∃ frags : List String,
      (sqlForPartialUpdate [("a", JsValue.num 1)]
        ([] : List (String × String))).map SqlUpdate.setCols =
        .ok (String.intercalate ", " frags) ∧
      frags.length = [("a", JsValue.num 1)].length ∧
      ∀ i, i < [("a", JsValue.num 1)].length → ∃ c : String,
        frags.getD i "" = "\"" ++ c ++ "\"=$" ++ toString (i + 1) :=
  C1_clause_shape [("a", JsValue.num 1)] [] (by decide)

/-- Claim C2: for every non-empty field map with distinct keys, the values
column has the same length as the map and its `i`-th element is the value
bound to the `i`-th key. -/
theorem C2_values_order (m : List (String × JsValue))
    (t : List (String × String)) (hm : m ≠ [])
    (hnd : (m.map Prod.fst).Nodup) :
    ∃ r, sqlForPartialUpdate m t = .ok r ∧ r.values.length = m.length ∧
      ∀ i, i < m.length →
        m.lookup ((m.map Prod.fst).getD i "") =
          some (r.values.getD i JsValue.null) := by
  refine ⟨_, sqlForPartialUpdate_ok m t hm, by simp, ?_⟩
  intro i hi
  have h1 : i < (m.map Prod.fst).length := by simpa using hi
  have h2 : i < (m.map Prod.snd).length := by simpa using hi
  rw [List.getD_eq_get _ _ h1, List.getD_eq_get _ _ h2,
    List.get_map, List.get_map]
  exact lookup_get_of_nodupKeys m hnd i hi

theorem C2_values_order_witness :
    ∃ r, sqlForPartialUpdate [("a", JsValue.num 1), ("b", JsValue.str "x")]
        ([] : List (String × String)) = .ok r ∧
      r.values.length = [("a", JsValue.num 1), ("b", JsValue.str "x")].length ∧
      ∀ i, i < [("a", JsValue.num 1), ("b", JsValue.str "x")].length →
        [("a", JsValue.num 1), ("b", JsValue.str "x")].lookup
          (([("a", JsValue.num 1), ("b", JsValue.str "x")].map Prod.fst).getD i "") =
          some (r.values.getD i JsValue.null) :=
  C2_values_order [("a", JsValue.num 1), ("b", JsValue.str "x")] []
    (by decide) (by decide)

/-- Claim C3, counterexample: with field map `{a: null}` and translation
`{a: ""}` the key `a` is present in the translation table, yet the clause
uses the key `a` itself, not the table's entry `""` — the claim's
"whatever that entry is" fails for the (falsy) empty-string entry. -/
theorem C3_counterexample :
    List.lookup "a" [("a", "")] = some "" ∧
    sqlForPartialUpdate [("a", JsValue.null)] [("a", "")] =
      .ok ⟨"\"a\"=$1", [JsValue.null]⟩ ∧
    ("\"a\"=$1" : String) ≠ "\"\"=$1" :=
  ⟨rfl, rfl, by decide⟩

/-- Claim C3 as amended: the resolved column of fragment `i` is `t[k]`
when `k` is present in `t` with a non-empty entry, and `k` itself when `k`
is absent or its entry is the empty string (`specResolvedColumn`). -/
theorem C3_amended_resolution (m : List (String × JsValue))
    (t : List (String × String)) (hm : m ≠ []) :
    ∃ frags : List String,
      (sqlForPartialUpdate m t).map SqlUpdate.setCols =
        .ok (String.intercalate ", " frags) ∧
      frags.length = m.length ∧
      ∀ i, i < m.length →
        frags.getD i "" =
          "\"" ++ specResolvedColumn t ((m.map Prod.fst).getD i "") ++
            "\"=$" ++ toString (i + 1) := by
  refine ⟨(m.map Prod.fst).mapIdx (fun idx colName =>
    "\"" ++ resolveCol t colName ++ "\"=$" ++ toString (idx + 1)), ?_, ?_, ?_⟩
  · rw [sqlForPartialUpdate_ok m t hm]; rfl
  · simp
  · intro i hi
    have hi' : i < ((m.map Prod.fst).mapIdx (fun idx colName =>
        "\"" ++ resolveCol t colName ++ "\"=$" ++ toString (idx + 1))).length := by
      simpa using hi
    have him : i < (m.map Prod.fst).length := by simpa using hi
    rw [List.getD_eq_get _ _ hi', List.get_mapIdx, List.getD_eq_get _ _ him]
    rfl

theorem C3_amended_resolution_witness :
    ∃ frags : List String,
      (sqlForPartialUpdate [("a", JsValue.null)] [("a", ""), ("b", "c")]).map
        SqlUpdate.setCols = .ok (String.intercalate ", " frags) ∧
      frags.length = [("a", JsValue.null)].length ∧
      ∀ i, i < [("a", JsValue.null)].length →
        frags.getD i "" =
          "\"" ++ specResolvedColumn [("a", ""), ("b", "c")]
            (([("a", JsValue.null)].map Prod.fst).getD i "") ++
            "\"=$" ++ toString (i + 1) :=
  C3_amended_resolution [("a", JsValue.null)] [("a", ""), ("b", "c")] (by decide)

/-- Claim C4: the builder fails, with a `BadRequestError` carrying the
message "No data", exactly on the empty field map; on every non-empty
field map it succeeds. -/
theorem C4_empty_rejected (m : List (String × JsValue))
    (t : List (String × String)) :
    (sqlForPartialUpdate m t = .error (.badRequestError "No data") ↔ m = []) ∧
    (m ≠ [] → ∃ r, sqlForPartialUpdate m t = .ok r) := by
  constructor
  · constructor
    · intro h
      by_contra hm
      rw [sqlForPartialUpdate_ok m t hm] at h
      exact Except.noConfusion h
    · intro h
      subst h
      rfl
  · intro hm
    exact ⟨_, sqlForPartialUpdate_ok m t hm⟩

theorem C4_empty_rejected_witness :
    sqlForPartialUpdate ([] : List (String × JsValue))
      ([] : List (String × String)) =
      .error (.badRequestError "No data") ∧
    ∃ r, sqlForPartialUpdate [("a", JsValue.null)]
      ([] : List (String × String)) = .ok r :=
  ⟨(C4_empty_rejected [] []).1.mpr rfl,
   (C4_empty_rejected [("a", JsValue.null)] []).2 (by decide)⟩

/-- Claim C5 (code side): `Job.update` does not bind the WHERE parameter
positionally.  On id `"1"` and data `{title: "x"}` the query text it
builds interpolates the id directly (`WHERE id = 1`) instead of
`WHERE id = $2`, and the parameter array is just `["x"]` — one element,
with no id appended. -/
theorem C5_job_update_interpolates_id :
    jobUpdateQuery "1" [("title", JsValue.str "x")] =
      .ok ("UPDATE jobs\n                      SET \"title\"=$1 \n                      WHERE id = 1 \n                      RETURNING id, \n                                title, \n                                salary, \n                                equity,\n                                company_handle AS \"companyHandle\"",
        [JsValue.str "x"]) :=
  rfl

/-- Claim C6: the two worked examples of the spec. -/
theorem C6_examples :
    sqlForPartialUpdate
      [("firstName", JsValue.str "Aliya"), ("age", JsValue.num 32)]
      [("firstName", "first_name")] =
      .ok ⟨"\"first_name\"=$1, \"age\"=$2",
        [JsValue.str "Aliya", JsValue.num 32]⟩ ∧
    sqlForPartialUpdate [("companyHandle", JsValue.str "ibm")]
      [("companyHandle", "company_handle")] =
      .ok ⟨"\"company_handle\"=$1", [JsValue.str "ibm"]⟩ :=
  ⟨rfl, rfl⟩

/-- Claim C7: two calls on identical inputs return identical output. -/
theorem C7_deterministic (m1 m2 : List (String × JsValue))
    (t1 t2 : List (String × String)) (hm : m1 = m2) (ht : t1 = t2) :
    sqlForPartialUpdate m1 t1 = sqlForPartialUpdate m2 t2 := by
  rw [hm, ht]

theorem C7_deterministic_witness :
    sqlForPartialUpdate [("a", JsValue.num 1)] [("a", "b")] =
      sqlForPartialUpdate [("a", JsValue.num 1)] [("a", "b")] :=
  C7_deterministic _ _ _ _ rfl rfl

/-- Claim C8: threading the two caller-owned objects through the call as
explicit state, the final state equals the initial state — neither input
object is modified — and the result agrees with the pure function. -/
theorem C8_no_mutation (m : List (String × JsValue))
    (t : List (String × String)) :
    (sqlForPartialUpdateSt ⟨m, t⟩).2 = ⟨m, t⟩ ∧
    (sqlForPartialUpdateSt ⟨m, t⟩).1 = sqlForPartialUpdate m t := by
  constructor
  · simp only [sqlForPartialUpdateSt, objectKeysOp, objectValuesOp]
    split <;> rfl
  · simp only [sqlForPartialUpdateSt, sqlForPartialUpdate,
      objectKeysOp, objectValuesOp]
    split <;> rfl

/-- Claim C9: the clause depends only on the key sequence, never on the
values — two non-empty field maps with the same keys in the same order
yield the same clause under any translation table. -/
theorem C9_clause_value_independent (m1 m2 : List (String × JsValue))
    (t : List (String × String))
    (hk : m1.map Prod.fst = m2.map Prod.fst) (hm : m1 ≠ []) :
    ∃ r1 r2, sqlForPartialUpdate m1 t = .ok r1 ∧
      sqlForPartialUpdate m2 t = .ok r2 ∧ r1.setCols = r2.setCols := by
  have hm2 : m2 ≠ [] := by
    intro h
    subst h
    simp only [List.map_nil] at hk
    exact hm (List.map_eq_nil_iff.mp hk)
  exact ⟨_, _, sqlForPartialUpdate_ok m1 t hm, sqlForPartialUpdate_ok m2 t hm2,
    by simp [hk]⟩

theorem C9_clause_value_independent_witness :
    ∃ r1 r2, sqlForPartialUpdate [("a", JsValue.str "secret")] [] = .ok r1 ∧
      sqlForPartialUpdate [("a", JsValue.num 5)] [] = .ok r2 ∧
      r1.setCols = r2.setCols :=
  C9_clause_value_independent [("a", JsValue.str "secret")]
    [("a", JsValue.num 5)] [] rfl (by decide)

/-- Claim C10: translation entries for keys outside the field map are
ignored — two translation tables that agree (by lookup) on every key of a
non-empty field map yield identical output. -/
theorem C10_unused_entries_ignored (m : List (String × JsValue))
    (t1 t2 : List (String × String))
    (hagree : ∀ k ∈ m.map Prod.fst, t1.lookup k = t2.lookup k)
    (hm : m ≠ []) :
    sqlForPartialUpdate m t1 = sqlForPartialUpdate m t2 := by
  rw [sqlForPartialUpdate_ok m t1 hm, sqlForPartialUpdate_ok m t2 hm]
  have hcols := mapIdx_congr_of_mem (l := m.map Prod.fst)
    (f := fun idx colName =>
      "\"" ++ resolveCol t1 colName ++ "\"=$" ++ toString (idx + 1))
    (g := fun idx colName =>
      "\"" ++ resolveCol t2 colName ++ "\"=$" ++ toString (idx + 1))
    (fun i k hk => by simp [resolveCol, hagree k hk])
  rw [hcols]

theorem C10_unused_entries_ignored_witness :
    sqlForPartialUpdate [("a", JsValue.null)] [("b", "c")] =
      sqlForPartialUpdate [("a", JsValue.null)] [] :=
  C10_unused_entries_ignored [("a", JsValue.null)] [("b", "c")] []
    (by decide) (by decide)

end Jobly
